import Mathlib

/-!
Verification of the rent-vs-buy projection engine.

The computation core of the repository lives twice, in `sourcePython.py`
(a notebook) and in `streamlitapp.py` (an interactive form).  Both copies
are embedded below over exact rational arithmetic (`ℚ`): the notebook copy
at top level, the interactive-form copy in the `streamlitapp` namespace.
Fallible computations (Python raising `ZeroDivisionError` on the annuity
denominator, or `IndexError` on an empty table) are modelled with `Option`.
Monetary quantities, rates and valuations are rationals; year and month
counts are naturals.
-/

/-- The `general` group of the `inputs` dictionary. -/
structure GeneralInputs where
  inflation_rate : ℚ
  savings_interest_rate : ℚ
  analysis_years : ℕ
  house_appreciation_rate : ℚ
  rent_increase_rate : ℚ
deriving DecidableEq

/-- The `rent` group of the `inputs` dictionary. -/
structure RentInputs where
  current_monthly_rent : ℚ
  annual_renters_insurance : ℚ
deriving DecidableEq

/-- The `buy` group of the `inputs` dictionary. -/
structure BuyInputs where
  cash_price : ℚ
  downpayment : ℚ
  closing_costs : ℚ
  mortgage_rate : ℚ
  mortgage_term_years : ℕ
  property_value_tax_rate_below_9200000 : ℚ
  property_value_tax_rate_above_9200000 : ℚ
  land_tax_rate : ℚ
  tax_authority_property_value : ℚ
  tax_authority_land_value : ℚ
  annual_revaluation_rate : ℚ
  base_insurance : ℚ
  base_maintenance : ℚ
  base_renovations : ℚ
  community_ownership_cost : ℚ
  monthly_car_lease : ℚ
  interest_deduction_rate : ℚ
deriving DecidableEq

/-- The `selling` group of the `inputs` dictionary. -/
structure SellingInputs where
  agent_commission_rate : ℚ
  capital_gains_tax_rate : ℚ
deriving DecidableEq

/-- The whole nested `inputs` configuration dictionary. -/
structure Inputs where
  general : GeneralInputs
  rent : RentInputs
  buy : BuyInputs
  selling : SellingInputs
deriving DecidableEq

/-- One row of the month-by-month amortization table built inside
`calculate_buy_scenario`. -/
structure MonthRecord where
  month : ℕ
  interest_paid : ℚ
  principal_paid : ℚ
  mortgage_balance : ℚ
deriving DecidableEq, Inhabited

/-- One row of the DataFrame returned by `calculate_rent_scenario`. -/
structure RentRecord where
  year : ℕ
  monthly_rent : ℚ
  annual_rent : ℚ
  renters_insurance : ℚ
  total_rent_cost : ℚ
deriving DecidableEq, Inhabited

/-- One row of the DataFrame returned by `calculate_buy_scenario`.
The `interest_paid` column stores the net-of-deduction interest, exactly
as the source does. -/
structure BuyRecord where
  year : ℕ
  interest_paid : ℚ
  principal_paid : ℚ
  property_value_tax : ℚ
  land_tax : ℚ
  insurance : ℚ
  maintenance : ℚ
  renovations : ℚ
  community_ownership_cost : ℚ
  car_lease : ℚ
  total_outflow : ℚ
  mortgage_balance_end : ℚ
  house_value_start : ℚ
  house_value_end : ℚ
  net_equity_end : ℚ
deriving DecidableEq, Inhabited

/-- One row of the DataFrame returned by
`calculate_rent_investment_scenario` (the broadcast
`final_rent_net_worth` column is kept out of the row and recovered from
the last `investment_end`, which is the value the source broadcasts). -/
structure InvestRecord where
  year : ℕ
  rent_outflow : ℚ
  buy_outflow : ℚ
  difference : ℚ
  investment_start : ℚ
  investment_end : ℚ
deriving DecidableEq, Inhabited

/-- The dictionary returned by `compare_scenarios`. -/
structure Summary where
  total_rent_outflow : ℚ
  final_rent_net_worth : ℚ
  total_buy_outflow : ℚ
  final_net_equity_buying : ℚ
  difference_in_net_worth : ℚ
deriving DecidableEq

/-- Embedding of `calculate_monthly_mortgage_payment` from `sourcePython.py`.
`none` models Python raising `ZeroDivisionError`: either the zero-rate
branch divides by `num_payments = 0`, or `0.0 ** (negative)` blows up
(`1 + monthly_rate = 0` with a positive number of payments), or the
annuity denominator `1 - (1+r)^(-n)` is zero. -/
def calculate_monthly_mortgage_payment (principal annual_interest_rate : ℚ)
    (years : ℕ) : Option ℚ :=
  let monthly_rate := annual_interest_rate / 12
  let num_payments : ℕ := years * 12
  if monthly_rate = 0 then
    if num_payments = 0 then none
    else some (principal / (num_payments : ℚ))
  else
    if 1 + monthly_rate = 0 ∧ num_payments ≠ 0 then none
    else if 1 - (1 + monthly_rate) ^ (-(num_payments : ℤ)) = 0 then none
    else some (principal * (monthly_rate / (1 - (1 + monthly_rate) ^ (-(num_payments : ℤ)))))

/-- Embedding of `apply_rent_increase` from `sourcePython.py`. -/
def apply_rent_increase (initial_rent rent_increase_rate : ℚ) (year : ℕ) : ℚ :=
  initial_rent * (1 + rent_increase_rate) ^ (year - 1)

/-- Embedding of `apply_house_appreciation` from `sourcePython.py`. -/
def apply_house_appreciation (initial_value appreciation_rate : ℚ) (year : ℕ) : ℚ :=
  initial_value * (1 + appreciation_rate) ^ (year - 1)

/-- Embedding of `apply_inflation` from `sourcePython.py`. -/
def apply_inflation (base_cost inflation_rate : ℚ) (year : ℕ) : ℚ :=
  base_cost * (1 + inflation_rate) ^ (year - 1)

/-- Embedding of `calculate_rent_scenario` from `sourcePython.py`: the loop
`for year in range(1, years + 1)`. -/
def calculate_rent_scenario (inputs : Inputs) : List RentRecord :=
  (List.range inputs.general.analysis_years).map fun i =>
    let year := i + 1
    let monthly_rent_this_year := apply_rent_increase
      inputs.rent.current_monthly_rent inputs.general.rent_increase_rate year
    let annual_rent := monthly_rent_this_year * 12
    let total_rent_cost := annual_rent + inputs.rent.annual_renters_insurance
    { year := year
      monthly_rent := monthly_rent_this_year
      annual_rent := annual_rent
      renters_insurance := inputs.rent.annual_renters_insurance
      total_rent_cost := total_rent_cost }

/-- The month-by-month amortization loop
`for m in range(1, total_months + 1)` inside `calculate_buy_scenario`:
`balance` is the running mortgage balance, `m` the index of the next
month and the last argument the number of months still to generate. -/
def mortgageMonths (annual_interest_rate monthly_payment : ℚ)
    (balance : ℚ) (m : ℕ) : ℕ → List MonthRecord
  | 0 => []
  | k + 1 =>
    let monthly_interest := balance * (annual_interest_rate / 12)
    let monthly_principal := monthly_payment - monthly_interest
    let newBalance := max (balance - monthly_principal) 0
    { month := m
      interest_paid := monthly_interest
      principal_paid := monthly_principal
      mortgage_balance := newBalance }
      :: mortgageMonths annual_interest_rate monthly_payment newBalance (m + 1) k

/-- The year bucket of a month index:
`monthly_df["year"] = ((monthly_df["month"] - 1) // 12) + 1`. -/
def monthYear (month : ℕ) : ℕ := (month - 1) / 12 + 1

/-- Embedding of `year_df = monthly_df[monthly_df["year"] == year]` inside
`calculate_buy_scenario`. -/
def yearMonths (monthly_df : List MonthRecord) (year : ℕ) : List MonthRecord :=
  monthly_df.filter fun r => monthYear r.month = year

/-- The yearly loop `for year in range(1, analysis_years + 1)` of
`calculate_buy_scenario`.  The loop state is carried explicitly: the
current year index, the house value at the start of the year (the source
reads it back from `buy_data[-1]["house_value_end"]`, which is exactly
the value carried here), and the two tax-authority valuations which the
source mutates after emitting each record.  The last argument counts the
years still to generate. -/
def buyYearRows (inputs : Inputs) (monthly_df : List MonthRecord) (year : ℕ)
    (house_value_start_year tax_authority_property_value tax_authority_land_value : ℚ) :
    ℕ → List BuyRecord
  | 0 => []
  | k + 1 =>
    let year_df := yearMonths monthly_df year
    let interest_paid_this_year :=
      if year_df = [] then 0 else (year_df.map MonthRecord.interest_paid).sum
    let principal_paid_this_year :=
      if year_df = [] then 0 else (year_df.map MonthRecord.principal_paid).sum
    let mortgage_balance_end :=
      if year_df = [] then 0 else (year_df.map MonthRecord.mortgage_balance).getLastD 0
    let house_value_end_year :=
      house_value_start_year * (1 + inputs.general.house_appreciation_rate)
    let taxable_value := tax_authority_property_value * 0.8
    let property_value_tax_this_year :=
      if taxable_value ≤ 9200000 then
        taxable_value * inputs.buy.property_value_tax_rate_below_9200000
      else
        9200000 * inputs.buy.property_value_tax_rate_below_9200000
          + (taxable_value - 9200000) * inputs.buy.property_value_tax_rate_above_9200000
    let taxable_land_value := tax_authority_land_value * (1 - 0.20)
    let land_tax_this_year := taxable_land_value * inputs.buy.land_tax_rate
    let insurance_this_year :=
      apply_inflation inputs.buy.base_insurance inputs.general.inflation_rate year
    let maintenance_this_year :=
      apply_inflation inputs.buy.base_maintenance inputs.general.inflation_rate year
    let renovations_this_year :=
      apply_inflation inputs.buy.base_renovations inputs.general.inflation_rate year
    let community_ownership_cost_this_year :=
      apply_inflation (inputs.buy.community_ownership_cost * 12) inputs.general.inflation_rate year
    let car_lease_this_year :=
      apply_inflation (inputs.buy.monthly_car_lease * 12) inputs.general.inflation_rate year
    let net_interest_paid_this_year :=
      interest_paid_this_year * (1 - inputs.buy.interest_deduction_rate)
    let total_annual_outflow :=
      net_interest_paid_this_year + principal_paid_this_year
        + property_value_tax_this_year + land_tax_this_year
        + insurance_this_year + maintenance_this_year + renovations_this_year
        + community_ownership_cost_this_year + car_lease_this_year
    let net_equity_end := house_value_end_year - mortgage_balance_end
    { year := year
      interest_paid := net_interest_paid_this_year
      principal_paid := principal_paid_this_year
      property_value_tax := property_value_tax_this_year
      land_tax := land_tax_this_year
      insurance := insurance_this_year
      maintenance := maintenance_this_year
      renovations := renovations_this_year
      community_ownership_cost := community_ownership_cost_this_year
      car_lease := car_lease_this_year
      total_outflow := total_annual_outflow
      mortgage_balance_end := mortgage_balance_end
      house_value_start := house_value_start_year
      house_value_end := house_value_end_year
      net_equity_end := net_equity_end }
      :: buyYearRows inputs monthly_df (year + 1) house_value_end_year
          (tax_authority_property_value * (1 + inputs.buy.annual_revaluation_rate))
          (tax_authority_land_value * (1 + inputs.buy.annual_revaluation_rate)) k

/-- Embedding of `calculate_buy_scenario` from `sourcePython.py`.  `none` models the
`ZeroDivisionError` escaping from `calculate_monthly_mortgage_payment`. -/
def calculate_buy_scenario (inputs : Inputs) : Option (List BuyRecord) :=
  let loan_amount := inputs.buy.cash_price - inputs.buy.downpayment
  (calculate_monthly_mortgage_payment loan_amount inputs.buy.mortgage_rate
      inputs.buy.mortgage_term_years).map fun monthly_payment =>
    let monthly_df := mortgageMonths inputs.buy.mortgage_rate monthly_payment
      loan_amount 1 (inputs.buy.mortgage_term_years * 12)
    buyYearRows inputs monthly_df 1 inputs.buy.cash_price
      inputs.buy.tax_authority_property_value inputs.buy.tax_authority_land_value
      inputs.general.analysis_years

/-- The yearly loop `for year in range(1, analysis_years + 1)` of
`calculate_rent_investment_scenario`; the list argument pairs each year's
`rent_outflow` with its `buy_outflow` (the `merged` frame). -/
def investRows (savings_rate : ℚ) (investment_balance : ℚ) (year : ℕ) :
    List (ℚ × ℚ) → List InvestRecord
  | [] => []
  | (rent_cost, buy_cost) :: rest =>
    let difference := buy_cost - rent_cost
    let investment_start := investment_balance
    let investment_end := (investment_start + difference) * (1 + savings_rate)
    { year := year
      rent_outflow := rent_cost
      buy_outflow := buy_cost
      difference := difference
      investment_start := investment_start
      investment_end := investment_end }
      :: investRows savings_rate investment_end (year + 1) rest

/-- Embedding of `calculate_rent_investment_scenario` from `sourcePython.py`.  The
`merged` frame pairs the rent and buy outflow columns positionally (row
`year` of `merged` is row `year` of each input frame, whose `year`
columns are `1..analysis_years` in order).  The final statement
`df_rent_invest["investment_end"].iloc[-1]` raises `IndexError` on an
empty frame, modelled by `none`. -/
def calculate_rent_investment_scenario (inputs : Inputs)
    (rent_df : List RentRecord) (buy_df : List BuyRecord) :
    Option (List InvestRecord) :=
  let merged := (rent_df.map RentRecord.total_rent_cost).zip
    (buy_df.map BuyRecord.total_outflow)
  let initial_investment := inputs.buy.downpayment + inputs.buy.closing_costs
  let rows := investRows inputs.general.savings_interest_rate initial_investment 1 merged
  match (rows.map InvestRecord.investment_end).getLast? with
  | none => none
  | some _ => some rows

/-- Embedding of `compare_scenarios` from `sourcePython.py`.  The row lookups
`rent_invest_df["final_rent_net_worth"].iloc[-1]` (that column is the
broadcast last `investment_end`) and
`buy_df[buy_df["year"] == last_year].iloc[0]` raise `IndexError` when
empty, modelled by `none`. -/
def compare_scenarios (rent_df : List RentRecord) (buy_df : List BuyRecord)
    (rent_invest_df : List InvestRecord) (inputs : Inputs) : Option Summary :=
  let total_rent_outflow := (rent_df.map RentRecord.total_rent_cost).sum
  let last_year := inputs.general.analysis_years
  match (rent_invest_df.map InvestRecord.investment_end).getLast?,
      (buy_df.filter fun r => r.year = last_year).head? with
  | some final_rent_net_worth, some final_buy_row =>
    let total_buy_outflow := (buy_df.map BuyRecord.total_outflow).sum
    let final_home_value := final_buy_row.house_value_end
    let final_mortgage_balance := final_buy_row.mortgage_balance_end
    let raw_equity := final_home_value - final_mortgage_balance
    let agent_commission := final_home_value * inputs.selling.agent_commission_rate
    let capital_gains := max (final_home_value - inputs.buy.cash_price) 0
    let cgt := capital_gains * inputs.selling.capital_gains_tax_rate
    let final_net_equity_buying := raw_equity - agent_commission - cgt
    some { total_rent_outflow := total_rent_outflow
           final_rent_net_worth := final_rent_net_worth
           total_buy_outflow := total_buy_outflow
           final_net_equity_buying := final_net_equity_buying
           difference_in_net_worth := final_net_equity_buying - final_rent_net_worth }
  | _, _ => none

/-!
The second copy of the computation core, embedded from `streamlitapp.py`
("Utility Functions (same as in your notebook)").  The record types are
the shared data model above; the functions are translated independently
from the interactive-form file.
-/

namespace streamlitapp

/-- Embedding of `calculate_monthly_mortgage_payment` from `streamlitapp.py`. -/
def calculate_monthly_mortgage_payment (principal annual_interest_rate : ℚ)
    (years : ℕ) : Option ℚ :=
  let monthly_rate := annual_interest_rate / 12
  let num_payments : ℕ := years * 12
  if monthly_rate = 0 then
    if num_payments = 0 then none
    else some (principal / (num_payments : ℚ))
  else
    if 1 + monthly_rate = 0 ∧ num_payments ≠ 0 then none
    else if 1 - (1 + monthly_rate) ^ (-(num_payments : ℤ)) = 0 then none
    else some (principal * (monthly_rate / (1 - (1 + monthly_rate) ^ (-(num_payments : ℤ)))))

/-- Embedding of `apply_rent_increase` from `streamlitapp.py`. -/
def apply_rent_increase (initial_rent rent_increase_rate : ℚ) (year : ℕ) : ℚ :=
  initial_rent * (1 + rent_increase_rate) ^ (year - 1)

/-- Embedding of `apply_house_appreciation` from `streamlitapp.py`. -/
def apply_house_appreciation (initial_value appreciation_rate : ℚ) (year : ℕ) : ℚ :=
  initial_value * (1 + appreciation_rate) ^ (year - 1)

/-- Embedding of `apply_inflation` from `streamlitapp.py`. -/
def apply_inflation (base_cost inflation_rate : ℚ) (year : ℕ) : ℚ :=
  base_cost * (1 + inflation_rate) ^ (year - 1)

/-- Embedding of `calculate_rent_scenario` from `streamlitapp.py`. -/
def calculate_rent_scenario (inputs : Inputs) : List RentRecord :=
  (List.range inputs.general.analysis_years).map fun i =>
    let year := i + 1
    let monthly_rent_this_year := apply_rent_increase
      inputs.rent.current_monthly_rent inputs.general.rent_increase_rate year
    let annual_rent := monthly_rent_this_year * 12
    let total_rent_cost := annual_rent + inputs.rent.annual_renters_insurance
    { year := year
      monthly_rent := monthly_rent_this_year
      annual_rent := annual_rent
      renters_insurance := inputs.rent.annual_renters_insurance
      total_rent_cost := total_rent_cost }

/-- The month-by-month amortization loop inside `streamlitapp.py`'s
`calculate_buy_scenario`. -/
def mortgageMonths (annual_interest_rate monthly_payment : ℚ)
    (balance : ℚ) (m : ℕ) : ℕ → List MonthRecord
  | 0 => []
  | k + 1 =>
    let monthly_interest := balance * (annual_interest_rate / 12)
    let monthly_principal := monthly_payment - monthly_interest
    let newBalance := max (balance - monthly_principal) 0
    { month := m
      interest_paid := monthly_interest
      principal_paid := monthly_principal
      mortgage_balance := newBalance }
      :: mortgageMonths annual_interest_rate monthly_payment newBalance (m + 1) k

/-- Embedding of `year_df = monthly_df[monthly_df["year"] == year]` in
`streamlitapp.py`'s `calculate_buy_scenario`. -/
def yearMonths (monthly_df : List MonthRecord) (year : ℕ) : List MonthRecord :=
  monthly_df.filter fun r => (r.month - 1) / 12 + 1 = year

/-- The yearly loop of `streamlitapp.py`'s `calculate_buy_scenario`. -/
def buyYearRows (inputs : Inputs) (monthly_df : List MonthRecord) (year : ℕ)
    (house_value_start_year tax_authority_property_value tax_authority_land_value : ℚ) :
    ℕ → List BuyRecord
  | 0 => []
  | k + 1 =>
    let year_df := yearMonths monthly_df year
    let interest_paid_this_year :=
      if year_df = [] then 0 else (year_df.map MonthRecord.interest_paid).sum
    let principal_paid_this_year :=
      if year_df = [] then 0 else (year_df.map MonthRecord.principal_paid).sum
    let mortgage_balance_end :=
      if year_df = [] then 0 else (year_df.map MonthRecord.mortgage_balance).getLastD 0
    let house_value_end_year :=
      house_value_start_year * (1 + inputs.general.house_appreciation_rate)
    let taxable_value := tax_authority_property_value * 0.8
    let property_value_tax_this_year :=
      if taxable_value ≤ 9200000 then
        taxable_value * inputs.buy.property_value_tax_rate_below_9200000
      else
        9200000 * inputs.buy.property_value_tax_rate_below_9200000
          + (taxable_value - 9200000) * inputs.buy.property_value_tax_rate_above_9200000
    let taxable_land_value := tax_authority_land_value * (1 - 0.20)
    let land_tax_this_year := taxable_land_value * inputs.buy.land_tax_rate
    let insurance_this_year :=
      apply_inflation inputs.buy.base_insurance inputs.general.inflation_rate year
    let maintenance_this_year :=
      apply_inflation inputs.buy.base_maintenance inputs.general.inflation_rate year
    let renovations_this_year :=
      apply_inflation inputs.buy.base_renovations inputs.general.inflation_rate year
    let community_ownership_cost_this_year :=
      apply_inflation (inputs.buy.community_ownership_cost * 12) inputs.general.inflation_rate year
    let car_lease_this_year :=
      apply_inflation (inputs.buy.monthly_car_lease * 12) inputs.general.inflation_rate year
    let net_interest_paid_this_year :=
      interest_paid_this_year * (1 - inputs.buy.interest_deduction_rate)
    let total_annual_outflow :=
      net_interest_paid_this_year + principal_paid_this_year
        + property_value_tax_this_year + land_tax_this_year
        + insurance_this_year + maintenance_this_year + renovations_this_year
        + community_ownership_cost_this_year + car_lease_this_year
    let net_equity_end := house_value_end_year - mortgage_balance_end
    { year := year
      interest_paid := net_interest_paid_this_year
      principal_paid := principal_paid_this_year
      property_value_tax := property_value_tax_this_year
      land_tax := land_tax_this_year
      insurance := insurance_this_year
      maintenance := maintenance_this_year
      renovations := renovations_this_year
      community_ownership_cost := community_ownership_cost_this_year
      car_lease := car_lease_this_year
      total_outflow := total_annual_outflow
      mortgage_balance_end := mortgage_balance_end
      house_value_start := house_value_start_year
      house_value_end := house_value_end_year
      net_equity_end := net_equity_end }
      :: buyYearRows inputs monthly_df (year + 1) house_value_end_year
          (tax_authority_property_value * (1 + inputs.buy.annual_revaluation_rate))
          (tax_authority_land_value * (1 + inputs.buy.annual_revaluation_rate)) k

/-- Embedding of `calculate_buy_scenario` from `streamlitapp.py`. -/
def calculate_buy_scenario (inputs : Inputs) : Option (List BuyRecord) :=
  let loan_amount := inputs.buy.cash_price - inputs.buy.downpayment
  (calculate_monthly_mortgage_payment loan_amount inputs.buy.mortgage_rate
      inputs.buy.mortgage_term_years).map fun monthly_payment =>
    let monthly_df := mortgageMonths inputs.buy.mortgage_rate monthly_payment
      loan_amount 1 (inputs.buy.mortgage_term_years * 12)
    buyYearRows inputs monthly_df 1 inputs.buy.cash_price
      inputs.buy.tax_authority_property_value inputs.buy.tax_authority_land_value
      inputs.general.analysis_years

/-- The yearly loop of `streamlitapp.py`'s
`calculate_rent_investment_scenario`. -/
def investRows (savings_rate : ℚ) (investment_balance : ℚ) (year : ℕ) :
    List (ℚ × ℚ) → List InvestRecord
  | [] => []
  | (rent_cost, buy_cost) :: rest =>
    let difference := buy_cost - rent_cost
    let investment_start := investment_balance
    let investment_end := (investment_start + difference) * (1 + savings_rate)
    { year := year
      rent_outflow := rent_cost
      buy_outflow := buy_cost
      difference := difference
      investment_start := investment_start
      investment_end := investment_end }
      :: investRows savings_rate investment_end (year + 1) rest

/-- Embedding of `calculate_rent_investment_scenario` from `streamlitapp.py`. -/
def calculate_rent_investment_scenario (inputs : Inputs)
    (rent_df : List RentRecord) (buy_df : List BuyRecord) :
    Option (List InvestRecord) :=
  let merged := (rent_df.map RentRecord.total_rent_cost).zip
    (buy_df.map BuyRecord.total_outflow)
  let initial_investment := inputs.buy.downpayment + inputs.buy.closing_costs
  let rows := investRows inputs.general.savings_interest_rate initial_investment 1 merged
  match (rows.map InvestRecord.investment_end).getLast? with
  | none => none
  | some _ => some rows

/-- Embedding of `compare_scenarios` from `streamlitapp.py`. -/
def compare_scenarios (rent_df : List RentRecord) (buy_df : List BuyRecord)
    (rent_invest_df : List InvestRecord) (inputs : Inputs) : Option Summary :=
  let total_rent_outflow := (rent_df.map RentRecord.total_rent_cost).sum
  let last_year := inputs.general.analysis_years
  match (rent_invest_df.map InvestRecord.investment_end).getLast?,
      (buy_df.filter fun r => r.year = last_year).head? with
  | some final_rent_net_worth, some final_buy_row =>
    let total_buy_outflow := (buy_df.map BuyRecord.total_outflow).sum
    let final_home_value := final_buy_row.house_value_end
    let final_mortgage_balance := final_buy_row.mortgage_balance_end
    let raw_equity := final_home_value - final_mortgage_balance
    let agent_commission := final_home_value * inputs.selling.agent_commission_rate
    let capital_gains := max (final_home_value - inputs.buy.cash_price) 0
    let cgt := capital_gains * inputs.selling.capital_gains_tax_rate
    let final_net_equity_buying := raw_equity - agent_commission - cgt
    some { total_rent_outflow := total_rent_outflow
           final_rent_net_worth := final_rent_net_worth
           total_buy_outflow := total_buy_outflow
           final_net_equity_buying := final_net_equity_buying
           difference_in_net_worth := final_net_equity_buying - final_rent_net_worth }
  | _, _ => none

end streamlitapp

/-!
Verification helpers: closed forms, claim-side formulas, and concrete
example configurations used by witness theorems.
-/

/-- Outstanding balance of an annuity loan with periodic rate `m`, fixed
payment `M` and `k` payments remaining. -/
def annuityBalance (m M : ℚ) (k : ℕ) : ℚ := M * (1 - (1 + m) ^ (-(k : ℤ))) / m

/-- The progressive two-tier property-value tax formula: the assessed
value `A` is taxed at `low` up to the 9,200,000 threshold and at `high`
on the excess.  This is definitionally the expression computed inline by
`calculate_buy_scenario`. -/
def twoTierPropertyTax (low high A : ℚ) : ℚ :=
  if A ≤ 9200000 then A * low
  else 9200000 * low + (A - 9200000) * high

/-- A minimal one-year configuration (zero rates everywhere, a fully
financed 120-unit house over a one-year mortgage). -/
def exampleInputsOneYear : Inputs :=
  { general := { inflation_rate := 0, savings_interest_rate := 0, analysis_years := 1
                 house_appreciation_rate := 0, rent_increase_rate := 0 }
    rent := { current_monthly_rent := 1, annual_renters_insurance := 0 }
    buy := { cash_price := 120, downpayment := 0, closing_costs := 0
             mortgage_rate := 0, mortgage_term_years := 1
             property_value_tax_rate_below_9200000 := 0
             property_value_tax_rate_above_9200000 := 0
             land_tax_rate := 0, tax_authority_property_value := 0
             tax_authority_land_value := 0, annual_revaluation_rate := 0
             base_insurance := 0, base_maintenance := 0, base_renovations := 0
             community_ownership_cost := 0, monthly_car_lease := 0
             interest_deduction_rate := 0 }
    selling := { agent_commission_rate := 0, capital_gains_tax_rate := 0 } }

/-- The one-year example with a two-year analysis horizon: the one-year
mortgage is paid off before the second analysis year. -/
def exampleInputsTwoYears : Inputs :=
  { exampleInputsOneYear with
    general := { exampleInputsOneYear.general with analysis_years := 2 } }

/-- The two-year example with nonzero tax-authority valuations, tax
rates and revaluation rate, to exercise the property-value tax track. -/
def exampleInputsTax : Inputs :=
  { exampleInputsTwoYears with
    buy := { exampleInputsTwoYears.buy with
             tax_authority_property_value := 100
             tax_authority_land_value := 50
             property_value_tax_rate_below_9200000 := 1/100
             property_value_tax_rate_above_9200000 := 1/10
             land_tax_rate := 1/100
             annual_revaluation_rate := 1 } }

/-- The one-year example with `analysis_years = 0`: an invalid
configuration in the sense of the specification. -/
def inputsYearsZero : Inputs :=
  { exampleInputsOneYear with
    general := { exampleInputsOneYear.general with analysis_years := 0 } }

/-- The one-year example with `mortgage_term_years = 0` and the default
5.03% mortgage rate: an invalid configuration in the sense of the
specification. -/
def inputsTermZero : Inputs :=
  { exampleInputsOneYear with
    buy := { exampleInputsOneYear.buy with
             mortgage_term_years := 0
             mortgage_rate := 503/10000 } }

/-- The buy schedule of the one-year example configuration. -/
def oneYearBuyRows : List BuyRecord :=
  (calculate_buy_scenario exampleInputsOneYear).getD []

/-- The buy schedule of the two-year example configuration. -/
def twoYearBuyRows : List BuyRecord :=
  (calculate_buy_scenario exampleInputsTwoYears).getD []

/-- The buy schedule of the tax example configuration. -/
def taxBuyRows : List BuyRecord :=
  (calculate_buy_scenario exampleInputsTax).getD []

/-- An arbitrary rent-schedule row used as input data by witnesses. -/
def exampleRentRow : RentRecord := ⟨1, 1, 12, 0, 5⟩

/-- An arbitrary buy-schedule row used as input data by witnesses. -/
def exampleBuyRowA : BuyRecord := ⟨1, 0, 0, 0, 0, 0, 0, 0, 0, 0, 7, 40, 0, 100, 60⟩

/-- The investment row the engine produces from the two example rows
under the one-year example configuration. -/
def exampleInvestRow : InvestRecord := ⟨1, 5, 7, 2, 0, 2⟩

/-!
Theorems.
-/

lemma annuityBalance_zero (m M : ℚ) : annuityBalance m M 0 = 0 := by
  simp [annuityBalance]

lemma annuityBalance_step (m M : ℚ) (hm : m ≠ 0) (hx : 1 + m ≠ 0) (k : ℕ) :
    annuityBalance m M (k + 1) * (1 + m) - M = annuityBalance m M k := by
  have key : (1 + m) ^ (-(k : ℤ)) = (1 + m) ^ (-((k : ℤ) + 1)) * (1 + m) := by
    rw [← zpow_add_one₀ hx]
    norm_num
  unfold annuityBalance
  push_cast
  rw [key]
  field_simp
  ring

lemma annuityBalance_nonneg (m M : ℚ) (hm : 0 < m) (hM : 0 ≤ M) (k : ℕ) :
    0 ≤ annuityBalance m M k := by
  have hx : (1 : ℚ) ≤ 1 + m := by linarith
  have h1 : (1 + m) ^ (-(k : ℤ)) ≤ 1 :=
    zpow_le_one_of_nonpos₀ hx (by exact_mod_cast Int.neg_nonpos_of_nonneg (Int.ofNat_nonneg k))
  have h2 : (0 : ℚ) ≤ 1 - (1 + m) ^ (-(k : ℤ)) := by linarith
  exact div_nonneg (mul_nonneg hM h2) (le_of_lt hm)

/-- Running the amortization loop from the annuity-form balance with `k`
payments remaining: the schedule has `k` rows, its principal portions sum
back to the starting balance, and the final stored balance is exactly 0. -/
lemma mortgageMonths_annuity (r M : ℚ) (hr : 0 < r) (hM : 0 ≤ M) :
    ∀ (k j : ℕ),
      (mortgageMonths r M (annuityBalance (r / 12) M k) j k).length = k ∧
      ((mortgageMonths r M (annuityBalance (r / 12) M k) j k).map
          MonthRecord.principal_paid).sum = annuityBalance (r / 12) M k ∧
      (k ≠ 0 →
        ((mortgageMonths r M (annuityBalance (r / 12) M k) j k).map
            MonthRecord.mortgage_balance).getLast? = some 0) := by
  have hm : (0 : ℚ) < r / 12 := by positivity
  have hmne : (r / 12) ≠ 0 := ne_of_gt hm
  have hxne : (1 : ℚ) + r / 12 ≠ 0 := by positivity
  intro k
  induction k with
  | zero =>
    intro j
    refine ⟨rfl, ?_, fun h => absurd rfl h⟩
    simp [mortgageMonths, annuityBalance_zero]
  | succ n ih =>
    intro j
    have hstep : annuityBalance (r / 12) M (n + 1)
        - (M - annuityBalance (r / 12) M (n + 1) * (r / 12))
        = annuityBalance (r / 12) M n := by
      have h1 := annuityBalance_step (r / 12) M hmne hxne n
      ring_nf
      ring_nf at h1
      linarith
    have hnn : 0 ≤ annuityBalance (r / 12) M n := annuityBalance_nonneg _ _ hm hM n
    have hmax : max (annuityBalance (r / 12) M (n + 1)
        - (M - annuityBalance (r / 12) M (n + 1) * (r / 12))) 0
        = annuityBalance (r / 12) M n := by
      rw [hstep]; exact max_eq_left hnn
    have hunfold : mortgageMonths r M (annuityBalance (r / 12) M (n + 1)) j (n + 1)
        = { month := j
            interest_paid := annuityBalance (r / 12) M (n + 1) * (r / 12)
            principal_paid := M - annuityBalance (r / 12) M (n + 1) * (r / 12)
            mortgage_balance := annuityBalance (r / 12) M n }
          :: mortgageMonths r M (annuityBalance (r / 12) M n) (j + 1) n := by
      simp only [mortgageMonths, hmax]
    obtain ⟨ihlen, ihsum, ihlast⟩ := ih (j + 1)
    refine ⟨?_, ?_, fun _ => ?_⟩
    · rw [hunfold]; simp [ihlen]
    · rw [hunfold]
      simp only [List.map_cons, List.sum_cons, ihsum]
      have h1 := annuityBalance_step (r / 12) M hmne hxne n
      ring_nf
      ring_nf at h1
      linarith
    · rw [hunfold]
      cases n with
      | zero =>
        simp [mortgageMonths, annuityBalance_zero]
      | succ p =>
        rcases hl : mortgageMonths r M (annuityBalance (r / 12) M (p + 1)) (j + 1) (p + 1)
          with _ | ⟨a, tl⟩
        · exfalso
          have hlen := ihlen
          rw [hl] at hlen
          simp at hlen
        · have hlast := ihlast (Nat.succ_ne_zero p)
          rw [hl] at hlast
          rw [List.map_cons, List.map_cons, List.getLast?_cons_cons]
          simpa using hlast

/-- Running the amortization loop at rate 0 from balance `M·k` with `k`
payments remaining. -/
lemma mortgageMonths_zero_rate (M : ℚ) (hM : 0 ≤ M) :
    ∀ (k j : ℕ),
      (mortgageMonths 0 M (M * k) j k).length = k ∧
      ((mortgageMonths 0 M (M * k) j k).map MonthRecord.principal_paid).sum = M * k ∧
      (k ≠ 0 →
        ((mortgageMonths 0 M (M * k) j k).map MonthRecord.mortgage_balance).getLast?
          = some 0) := by
  intro k
  induction k with
  | zero =>
    intro j
    refine ⟨rfl, by simp [mortgageMonths], fun h => absurd rfl h⟩
  | succ n ih =>
    intro j
    have hstep : M * ((n : ℚ) + 1) - (M - M * ((n : ℚ) + 1) * (0 / 12)) = M * n := by
      norm_num
      ring
    have hnn : 0 ≤ M * (n : ℚ) := mul_nonneg hM (by positivity)
    have hmax : max (M * ((n : ℚ) + 1) - (M - M * ((n : ℚ) + 1) * (0 / 12))) 0 = M * n := by
      rw [hstep]; exact max_eq_left hnn
    have hunfold : mortgageMonths 0 M (M * ((n : ℕ) + 1 : ℕ)) j (n + 1)
        = { month := j
            interest_paid := M * ((n : ℚ) + 1) * (0 / 12)
            principal_paid := M - M * ((n : ℚ) + 1) * (0 / 12)
            mortgage_balance := M * n }
          :: mortgageMonths 0 M (M * n) (j + 1) n := by
      simp only [mortgageMonths]
      push_cast
      rw [hmax]
    obtain ⟨ihlen, ihsum, ihlast⟩ := ih (j + 1)
    refine ⟨?_, ?_, fun _ => ?_⟩
    · rw [hunfold]; simp [ihlen]
    · rw [hunfold]
      simp only [List.map_cons, List.sum_cons, ihsum]
      push_cast
      norm_num
      ring
    · rw [hunfold]
      cases n with
      | zero =>
        simp [mortgageMonths]
      | succ p =>
        rcases hl : mortgageMonths 0 M (M * ((p : ℚ) + 1)) (j + 1) (p + 1) with _ | ⟨a, tl⟩
        · exfalso
          have hlen := ihlen
          push_cast at hlen hl
          rw [hl] at hlen
          simp at hlen
        · have hlast := ihlast (Nat.succ_ne_zero p)
          push_cast at hlast
          rw [hl] at hlast
          push_cast
          rw [hl, List.map_cons, List.map_cons, List.getLast?_cons_cons]
          simpa using hlast

/-- Claim C2: for any principal `P > 0`, annual rate `r ≥ 0` and term
`T > 0` years, `calculate_monthly_mortgage_payment` yields a payment `M`,
and the monthly amortization loop run with it produces exactly `12·T`
records whose principal portions sum exactly to `P` and whose final
stored balance is exactly 0 (exact rational arithmetic). -/
theorem amortization_schedule_exact (P r : ℚ) (T : ℕ)
    (hP : 0 < P) (hr : 0 ≤ r) (hT : 0 < T) :
    ∃ M, calculate_monthly_mortgage_payment P r T = some M ∧
      (mortgageMonths r M P 1 (T * 12)).length = 12 * T ∧
      ((mortgageMonths r M P 1 (T * 12)).map MonthRecord.principal_paid).sum = P ∧
      ((mortgageMonths r M P 1 (T * 12)).map MonthRecord.mortgage_balance).getLast?
        = some 0 := by
  have hn : T * 12 ≠ 0 := by positivity
  rcases eq_or_lt_of_le hr with hr0 | hrpos
  · subst hr0
    refine ⟨P / ((T * 12 : ℕ) : ℚ), ?_, ?_⟩
    · simp [calculate_monthly_mortgage_payment, hn]
    · have hM : 0 ≤ P / ((T * 12 : ℕ) : ℚ) := by positivity
      have hPM : P = (P / ((T * 12 : ℕ) : ℚ)) * ((T * 12 : ℕ) : ℚ) := by
        field_simp
      obtain ⟨hlen, hsum, hlast⟩ :=
        mortgageMonths_zero_rate (P / ((T * 12 : ℕ) : ℚ)) hM (T * 12) 1
      rw [← hPM] at hlen hsum hlast
      exact ⟨by rw [hlen]; exact Nat.mul_comm T 12, hsum, hlast hn⟩
  · have hm : (0 : ℚ) < r / 12 := by positivity
    have hmne : r / 12 ≠ 0 := ne_of_gt hm
    have hx1 : (1 : ℚ) < 1 + r / 12 := by linarith
    have hxne : (1 : ℚ) + r / 12 ≠ 0 := by linarith
    have hzlt : ((1 : ℚ) + r / 12) ^ (-((T * 12 : ℕ) : ℤ)) < 1 := by
      refine zpow_lt_one_of_neg₀ hx1 ?_
      have hpos : (0 : ℤ) < ((T * 12 : ℕ) : ℤ) := by exact_mod_cast Nat.pos_of_ne_zero hn
      omega
    have hd : (0 : ℚ) < 1 - (1 + r / 12) ^ (-((T * 12 : ℕ) : ℤ)) := by linarith
    set d := 1 - (1 + r / 12) ^ (-((T * 12 : ℕ) : ℤ)) with hddef
    set M := P * ((r / 12) / d) with hMdef
    have hM : 0 ≤ M := by
      have hq : 0 < (r / 12) / d := div_pos hm hd
      positivity
    refine ⟨M, ?_, ?_⟩
    · simp only [calculate_monthly_mortgage_payment]
      rw [if_neg hmne]
      rw [if_neg (by push_neg; intro hcon; exact absurd hcon hxne)]
      rw [if_neg (by rw [← hddef]; exact ne_of_gt hd)]
    · have hPann : P = annuityBalance (r / 12) M (T * 12) := by
        rw [annuityBalance, hMdef, ← hddef]
        field_simp
        ring
      obtain ⟨hlen, hsum, hlast⟩ := mortgageMonths_annuity r M hrpos hM (T * 12) 1
      rw [← hPann] at hlen hsum hlast
      exact ⟨by rw [hlen]; exact Nat.mul_comm T 12, hsum, hlast hn⟩

/-- Witness for claim C2 at the specification's concrete scenario:
principal 5,000,000, rate 5%, term 30 years. -/
theorem amortization_schedule_exact_witness :
    ∃ M, calculate_monthly_mortgage_payment 5000000 (1/20) 30 = some M ∧
      (mortgageMonths (1/20) M 5000000 1 (30 * 12)).length = 12 * 30 ∧
      ((mortgageMonths (1/20) M 5000000 1 (30 * 12)).map MonthRecord.principal_paid).sum
        = 5000000 ∧
      ((mortgageMonths (1/20) M 5000000 1 (30 * 12)).map MonthRecord.mortgage_balance).getLast?
        = some 0 :=
  amortization_schedule_exact 5000000 (1/20) 30 (by norm_num) (by norm_num) (by norm_num)

lemma headI_mem_of_ne_nil {α : Type} [Inhabited α] (l : List α) (h : l ≠ []) :
    l.headI ∈ l := by
  cases l with
  | nil => exact absurd rfl h
  | cons a t => simp

lemma getLastD_mem_of_ne_nil {α : Type} (l : List α) (d : α) (h : l ≠ []) :
    l.getLastD d ∈ l := by
  rw [List.getLastD_eq_getLast?, List.getLast?_eq_getLast l h]
  exact List.getLast_mem h

lemma getLastD_map {α β : Type} (f : α → β) (d : α) :
    ∀ l : List α, (l.map f).getLastD (f d) = f (l.getLastD d)
  | [] => rfl
  | a :: t => by
    rw [List.map_cons, List.getLastD_cons, List.getLastD_cons]
    exact getLastD_map f a t

/-- At a zero annual rate every month of the amortization loop records
zero interest and a principal portion equal to the payment. -/
lemma mortgageMonths_rate_zero_fields (M : ℚ) :
    ∀ (k : ℕ) (b : ℚ) (j : ℕ), ∀ rec ∈ mortgageMonths 0 M b j k,
      rec.interest_paid = 0 ∧ rec.principal_paid = M := by
  intro k
  induction k with
  | zero =>
    intro b j rec h
    simp [mortgageMonths] at h
  | succ n ih =>
    intro b j rec h
    rw [mortgageMonths] at h
    rcases List.mem_cons.mp h with hh | ht
    · subst hh
      constructor
      · simp
      · simp
    · exact ih _ _ rec ht

/-- Claim C9: at annual rate 0 the monthly payment is `P/(12·T)`, and
every month of the amortization loop records zero interest and a
principal portion equal to that payment. -/
theorem zero_rate_payment_linear (P : ℚ) (T : ℕ) (hT : 0 < T) :
    calculate_monthly_mortgage_payment P 0 T = some (P / (12 * (T : ℚ))) ∧
    ∀ rec ∈ mortgageMonths 0 (P / (12 * (T : ℚ))) P 1 (T * 12),
      rec.interest_paid = 0 ∧ rec.principal_paid = P / (12 * (T : ℚ)) := by
  have hn : T * 12 ≠ 0 := by positivity
  have hcast : ((T * 12 : ℕ) : ℚ) = 12 * (T : ℚ) := by push_cast; ring
  constructor
  · simp [calculate_monthly_mortgage_payment, hn, hcast]
  · intro rec h
    exact mortgageMonths_rate_zero_fields _ _ _ _ rec h

/-- Witness for claim C9 at principal 600 over a 5-year zero-rate
mortgage. -/
theorem zero_rate_payment_linear_witness :
    calculate_monthly_mortgage_payment 600 0 5 = some (600 / (12 * (5 : ℚ))) ∧
    ∀ rec ∈ mortgageMonths 0 (600 / (12 * (5 : ℚ))) 600 1 (5 * 12),
      rec.interest_paid = 0 ∧ rec.principal_paid = 600 / (12 * (5 : ℚ)) :=
  zero_rate_payment_linear 600 5 (by norm_num)

/-- Claim C10: every stored monthly `mortgage_balance` is clamped
non-negative (the `max (· , 0)` applies after every single month), while
the stored `principal_paid` is the unclamped `payment - interest`,
whatever the loan amount, rate and payment. -/
theorem mortgage_balance_clamped_nonneg :
    ∀ (annual_interest_rate monthly_payment balance : ℚ) (j k : ℕ),
      ∀ rec ∈ mortgageMonths annual_interest_rate monthly_payment balance j k,
        0 ≤ rec.mortgage_balance ∧
        rec.principal_paid = monthly_payment - rec.interest_paid := by
  intro r M b j k
  induction k generalizing b j with
  | zero =>
    intro rec h
    simp [mortgageMonths] at h
  | succ n ih =>
    intro rec h
    rw [mortgageMonths] at h
    rcases List.mem_cons.mp h with hh | ht
    · subst hh
      exact ⟨le_max_right _ _, rfl⟩
    · exact ih _ _ rec ht

/-- Witness for claim C10 on a negatively amortizing month: rate 1200%,
payment 5, balance −3 gives interest −3, unclamped principal 8, and a
stored balance clamped from −11 up to 0. -/
theorem mortgage_balance_clamped_nonneg_witness :
    0 ≤ (⟨1, -3, 8, 0⟩ : MonthRecord).mortgage_balance ∧
      (⟨1, -3, 8, 0⟩ : MonthRecord).principal_paid
        = 5 - (⟨1, -3, 8, 0⟩ : MonthRecord).interest_paid :=
  mortgage_balance_clamped_nonneg 12 5 (-3) 1 1 ⟨1, -3, 8, 0⟩
    (by norm_num [mortgageMonths, max_def])

lemma buyYearRows_length (inputs : Inputs) (mdf : List MonthRecord) :
    ∀ (k year : ℕ) (hv tpv tlv : ℚ),
      (buyYearRows inputs mdf year hv tpv tlv k).length = k := by
  intro k
  induction k with
  | zero => intro year hv tpv tlv; rfl
  | succ n ih =>
    intro year hv tpv tlv
    rw [buyYearRows, List.length_cons, ih]

lemma buyYearRows_years (inputs : Inputs) (mdf : List MonthRecord) :
    ∀ (k year : ℕ) (hv tpv tlv : ℚ),
      (buyYearRows inputs mdf year hv tpv tlv k).map BuyRecord.year
        = List.range' year k := by
  intro k
  induction k with
  | zero => intro year hv tpv tlv; rfl
  | succ n ih =>
    intro year hv tpv tlv
    rw [buyYearRows, List.map_cons, ih, List.range'_succ]

lemma buyYearRows_equity (inputs : Inputs) (mdf : List MonthRecord) :
    ∀ (k year : ℕ) (hv tpv tlv : ℚ),
      ∀ rec ∈ buyYearRows inputs mdf year hv tpv tlv k,
        rec.net_equity_end = rec.house_value_end - rec.mortgage_balance_end := by
  intro k
  induction k with
  | zero =>
    intro year hv tpv tlv rec h
    simp [buyYearRows] at h
  | succ n ih =>
    intro year hv tpv tlv rec h
    rw [buyYearRows] at h
    rcases List.mem_cons.mp h with hh | ht
    · subst hh; rfl
    · exact ih _ _ _ _ rec ht

lemma mortgageMonths_month_bounds (r M : ℚ) :
    ∀ (k : ℕ) (b : ℚ) (j : ℕ), ∀ rec ∈ mortgageMonths r M b j k,
      j ≤ rec.month ∧ rec.month < j + k := by
  intro k
  induction k with
  | zero =>
    intro b j rec h
    simp [mortgageMonths] at h
  | succ n ih =>
    intro b j rec h
    rw [mortgageMonths] at h
    rcases List.mem_cons.mp h with hh | ht
    · subst hh
      refine ⟨le_refl _, ?_⟩
      show j < j + (n + 1)
      omega
    · obtain ⟨h1, h2⟩ := ih _ _ rec ht
      omega

lemma buyYearRows_payoff (inputs : Inputs) (mdf : List MonthRecord) (t : ℕ)
    (hmon : ∀ mrec ∈ mdf, monthYear mrec.month ≤ t) :
    ∀ (k year : ℕ) (hv tpv tlv : ℚ),
      ∀ rec ∈ buyYearRows inputs mdf year hv tpv tlv k, t < rec.year →
        rec.interest_paid = 0 ∧ rec.principal_paid = 0 ∧ rec.mortgage_balance_end = 0 := by
  intro k
  induction k with
  | zero =>
    intro year hv tpv tlv rec h
    simp [buyYearRows] at h
  | succ n ih =>
    intro year hv tpv tlv rec h hyear
    rw [buyYearRows] at h
    rcases List.mem_cons.mp h with hh | ht
    · subst hh
      have hy : t < year := hyear
      have hfil : yearMonths mdf year = [] := by
        rw [yearMonths, List.filter_eq_nil_iff]
        intro a ha
        have := hmon a ha
        simp only [decide_eq_true_eq]
        omega
      refine ⟨?_, ?_, ?_⟩ <;> simp [hfil]
    · exact ih _ _ _ _ rec ht hyear

/-- Claim C8: every row of the buy schedule satisfies
`net_equity_end = house_value_end - mortgage_balance_end` exactly. -/
theorem buy_equity_identity (inputs : Inputs) (rows : List BuyRecord)
    (h : calculate_buy_scenario inputs = some rows) :
    ∀ rec ∈ rows, rec.net_equity_end = rec.house_value_end - rec.mortgage_balance_end := by
  simp only [calculate_buy_scenario] at h
  rw [Option.map_eq_some'] at h
  obtain ⟨M, hM, hrows⟩ := h
  intro rec hrec
  rw [← hrows] at hrec
  exact buyYearRows_equity inputs _ _ _ _ _ _ rec hrec

/-- Claim C7: when the mortgage term is shorter than the analysis
horizon, every buy-schedule year after payoff reports zero interest, zero
principal and zero ending balance. -/
theorem buy_payoff_tail (inputs : Inputs) (rows : List BuyRecord)
    (h : calculate_buy_scenario inputs = some rows)
    (hlt : inputs.buy.mortgage_term_years < inputs.general.analysis_years) :
    ∀ rec ∈ rows, inputs.buy.mortgage_term_years < rec.year →
      rec.interest_paid = 0 ∧ rec.principal_paid = 0 ∧ rec.mortgage_balance_end = 0 := by
  simp only [calculate_buy_scenario] at h
  rw [Option.map_eq_some'] at h
  obtain ⟨M, hM, hrows⟩ := h
  intro rec hrec hyear
  rw [← hrows] at hrec
  refine buyYearRows_payoff inputs _ inputs.buy.mortgage_term_years ?_ _ _ _ _ _ rec hrec hyear
  intro mrec hm
  obtain ⟨h1, h2⟩ := mortgageMonths_month_bounds _ _ _ _ _ mrec hm
  have hm12 : mrec.month - 1 < inputs.buy.mortgage_term_years * 12 := by omega
  have hdiv : (mrec.month - 1) / 12 < inputs.buy.mortgage_term_years :=
    (Nat.div_lt_iff_lt_mul (by norm_num : 0 < 12)).mpr hm12
  rw [monthYear]
  omega

lemma buyYearRows_property_tax (inputs : Inputs) (mdf : List MonthRecord) :
    ∀ (k year : ℕ) (hv tpv tlv : ℚ),
      ∀ rec ∈ buyYearRows inputs mdf year hv tpv tlv k,
        year ≤ rec.year ∧
        rec.property_value_tax =
          twoTierPropertyTax inputs.buy.property_value_tax_rate_below_9200000
            inputs.buy.property_value_tax_rate_above_9200000
            (tpv * (1 + inputs.buy.annual_revaluation_rate) ^ (rec.year - year) * 0.8) := by
  intro k
  induction k with
  | zero =>
    intro year hv tpv tlv rec h
    simp [buyYearRows] at h
  | succ n ih =>
    intro year hv tpv tlv rec h
    rw [buyYearRows] at h
    rcases List.mem_cons.mp h with hh | ht
    · subst hh
      refine ⟨le_refl _, ?_⟩
      simp only [Nat.sub_self, pow_zero, mul_one]
      rfl
    · obtain ⟨h1, h2⟩ := ih _ _ _ _ rec ht
      refine ⟨by omega, ?_⟩
      rw [h2]
      have he : rec.year - year = (rec.year - (year + 1)) + 1 := by omega
      have harg : tpv * (1 + inputs.buy.annual_revaluation_rate)
            * (1 + inputs.buy.annual_revaluation_rate) ^ (rec.year - (year + 1)) * 0.8
          = tpv * (1 + inputs.buy.annual_revaluation_rate) ^ (rec.year - year) * 0.8 := by
        rw [he, pow_succ]
        ring
      rw [harg]

/-- Claim C6: every buy-schedule row's property-value tax is the
two-tier formula applied to 80% of the tax-authority valuation
compounded by the revaluation rate, `V(y) = v0 · (1+reval)^(y-1)`,
independently of the market-appreciation track; and the schedule's year
column is exactly `1..analysis_years`. -/
theorem buy_property_value_tax_two_tier (inputs : Inputs) (rows : List BuyRecord)
    (h : calculate_buy_scenario inputs = some rows) :
    rows.map BuyRecord.year = List.range' 1 inputs.general.analysis_years ∧
    ∀ rec ∈ rows,
      rec.property_value_tax =
        twoTierPropertyTax inputs.buy.property_value_tax_rate_below_9200000
          inputs.buy.property_value_tax_rate_above_9200000
          (0.8 * (inputs.buy.tax_authority_property_value
            * (1 + inputs.buy.annual_revaluation_rate) ^ (rec.year - 1))) := by
  simp only [calculate_buy_scenario] at h
  rw [Option.map_eq_some'] at h
  obtain ⟨M, hM, hrows⟩ := h
  constructor
  · rw [← hrows]
    exact buyYearRows_years inputs _ _ _ _ _ _
  · intro rec hrec
    rw [← hrows] at hrec
    obtain ⟨h1, h2⟩ := buyYearRows_property_tax inputs _ _ _ _ _ _ rec hrec
    rw [h2]
    have harg : inputs.buy.tax_authority_property_value
          * (1 + inputs.buy.annual_revaluation_rate) ^ (rec.year - 1) * 0.8
        = 0.8 * (inputs.buy.tax_authority_property_value
          * (1 + inputs.buy.annual_revaluation_rate) ^ (rec.year - 1)) := by
      ring
    rw [harg]

lemma ne_nil_of_length_eq_succ {α : Type} (l : List α) (n : ℕ)
    (h : l.length = n + 1) : l ≠ [] := by
  intro hcon
  rw [hcon] at h
  simp at h

lemma range'_getLastD :
    ∀ (n s d : ℕ), n ≠ 0 → (List.range' s n).getLastD d = s + n - 1 := by
  intro n
  induction n with
  | zero => intro s d h; exact absurd rfl h
  | succ m ih =>
    intro s d h
    rw [List.range'_succ, List.getLastD_cons]
    cases m with
    | zero => simp
    | succ p =>
      rw [ih (s + 1) s (by omega)]
      omega

lemma payment_zero_rate_isSome (P : ℚ) (T : ℕ) (hT : T ≠ 0) :
    (calculate_monthly_mortgage_payment P 0 T).isSome := by
  have hn : T * 12 ≠ 0 := by positivity
  simp [calculate_monthly_mortgage_payment, hn]

lemma calculate_buy_scenario_eq_getD (inputs : Inputs)
    (h : (calculate_monthly_mortgage_payment
        (inputs.buy.cash_price - inputs.buy.downpayment)
        inputs.buy.mortgage_rate inputs.buy.mortgage_term_years).isSome) :
    calculate_buy_scenario inputs = some ((calculate_buy_scenario inputs).getD []) := by
  simp only [calculate_buy_scenario]
  obtain ⟨M, hM⟩ := Option.isSome_iff_exists.mp h
  rw [hM]
  rfl

lemma calculate_buy_scenario_rows_length (inputs : Inputs) (rows : List BuyRecord)
    (h : calculate_buy_scenario inputs = some rows) :
    rows.length = inputs.general.analysis_years := by
  simp only [calculate_buy_scenario] at h
  rw [Option.map_eq_some'] at h
  obtain ⟨M, hM, hrows⟩ := h
  rw [← hrows]
  exact buyYearRows_length inputs _ _ _ _ _ _

lemma calculate_buy_scenario_last_year (inputs : Inputs) (rows : List BuyRecord)
    (h : calculate_buy_scenario inputs = some rows)
    (hne : inputs.general.analysis_years ≠ 0) :
    (rows.getLastD default).year = inputs.general.analysis_years := by
  simp only [calculate_buy_scenario] at h
  rw [Option.map_eq_some'] at h
  obtain ⟨M, hM, hrows⟩ := h
  have hy : rows.map BuyRecord.year = List.range' 1 inputs.general.analysis_years := by
    rw [← hrows]
    exact buyYearRows_years inputs _ _ _ _ _ _
  have hmap := getLastD_map BuyRecord.year (default : BuyRecord) rows
  rw [hy, range'_getLastD _ _ _ hne] at hmap
  omega

lemma buy_one_some : calculate_buy_scenario exampleInputsOneYear = some oneYearBuyRows := by
  rw [oneYearBuyRows]
  apply calculate_buy_scenario_eq_getD
  exact payment_zero_rate_isSome _ _ (by decide)

lemma buy_two_some : calculate_buy_scenario exampleInputsTwoYears = some twoYearBuyRows := by
  rw [twoYearBuyRows]
  apply calculate_buy_scenario_eq_getD
  exact payment_zero_rate_isSome _ _ (by decide)

lemma buy_tax_some : calculate_buy_scenario exampleInputsTax = some taxBuyRows := by
  rw [taxBuyRows]
  apply calculate_buy_scenario_eq_getD
  exact payment_zero_rate_isSome _ _ (by decide)

lemma oneYearBuyRows_ne_nil : oneYearBuyRows ≠ [] :=
  ne_nil_of_length_eq_succ _ 0
    (calculate_buy_scenario_rows_length exampleInputsOneYear oneYearBuyRows buy_one_some)

lemma twoYearBuyRows_ne_nil : twoYearBuyRows ≠ [] :=
  ne_nil_of_length_eq_succ _ 1
    (calculate_buy_scenario_rows_length exampleInputsTwoYears twoYearBuyRows buy_two_some)

lemma twoYearBuyRows_last_year : (twoYearBuyRows.getLastD default).year = 2 :=
  calculate_buy_scenario_last_year exampleInputsTwoYears twoYearBuyRows buy_two_some
    (by decide)

/-- Witness for claim C8 on the one-year example configuration. -/
theorem buy_equity_identity_witness :
    oneYearBuyRows.headI.net_equity_end
      = oneYearBuyRows.headI.house_value_end - oneYearBuyRows.headI.mortgage_balance_end :=
  buy_equity_identity exampleInputsOneYear oneYearBuyRows buy_one_some
    oneYearBuyRows.headI (headI_mem_of_ne_nil _ oneYearBuyRows_ne_nil)

/-- Witness for claim C7 on the two-year example configuration with a
one-year mortgage: the year-2 row is all zeros on the mortgage track. -/
theorem buy_payoff_tail_witness :
    (twoYearBuyRows.getLastD default).interest_paid = 0 ∧
    (twoYearBuyRows.getLastD default).principal_paid = 0 ∧
    (twoYearBuyRows.getLastD default).mortgage_balance_end = 0 :=
  buy_payoff_tail exampleInputsTwoYears twoYearBuyRows buy_two_some (by decide)
    (twoYearBuyRows.getLastD default)
    (getLastD_mem_of_ne_nil _ _ twoYearBuyRows_ne_nil)
    (by rw [twoYearBuyRows_last_year]; decide)

/-- Witness for claim C6 on the tax example configuration (nonzero
valuation, rates and a 100% revaluation rate). -/
theorem buy_property_value_tax_two_tier_witness :
    taxBuyRows.map BuyRecord.year = List.range' 1 exampleInputsTax.general.analysis_years ∧
    ∀ rec ∈ taxBuyRows,
      rec.property_value_tax =
        twoTierPropertyTax exampleInputsTax.buy.property_value_tax_rate_below_9200000
          exampleInputsTax.buy.property_value_tax_rate_above_9200000
          (0.8 * (exampleInputsTax.buy.tax_authority_property_value
            * (1 + exampleInputsTax.buy.annual_revaluation_rate) ^ (rec.year - 1))) :=
  buy_property_value_tax_two_tier exampleInputsTax taxBuyRows buy_tax_some

lemma investRows_fields (s : ℚ) :
    ∀ (l : List (ℚ × ℚ)) (bal : ℚ) (y : ℕ), ∀ rec ∈ investRows s bal y l,
      rec.difference = rec.buy_outflow - rec.rent_outflow ∧
      rec.investment_end
        = (rec.investment_start + (rec.buy_outflow - rec.rent_outflow)) * (1 + s) := by
  intro l
  induction l with
  | nil =>
    intro bal y rec h
    simp [investRows] at h
  | cons p rest ih =>
    obtain ⟨rc, bc⟩ := p
    intro bal y rec h
    rw [investRows] at h
    rcases List.mem_cons.mp h with hh | ht
    · subst hh; exact ⟨rfl, rfl⟩
    · exact ih _ _ rec ht

lemma investRows_head (s : ℚ) :
    ∀ (l : List (ℚ × ℚ)) (bal : ℚ) (y : ℕ) (rec : InvestRecord),
      (investRows s bal y l).head? = some rec → rec.investment_start = bal := by
  intro l bal y rec h
  cases l with
  | nil => simp [investRows] at h
  | cons p rest =>
    obtain ⟨rc, bc⟩ := p
    rw [investRows] at h
    simp only [List.head?_cons, Option.some.injEq] at h
    rw [← h]

lemma investRows_chain (s : ℚ) :
    ∀ (l : List (ℚ × ℚ)) (bal : ℚ) (y : ℕ),
      List.Chain' (fun a b => b.investment_start = a.investment_end)
        (investRows s bal y l) := by
  intro l
  induction l with
  | nil =>
    intro bal y
    simp [investRows]
  | cons p rest ih =>
    obtain ⟨rc, bc⟩ := p
    intro bal y
    rw [investRows, List.chain'_cons']
    refine ⟨?_, ih _ _⟩
    intro b hb
    exact investRows_head s rest _ (y + 1) b (Option.mem_def.mp hb)

/-- Claim C3: every investment-schedule row satisfies the recurrence
`investment_end = (investment_start + (buy_outflow - rent_outflow)) × (1 + savings_rate)`,
the first row starts from `downpayment + closing_costs`, and each row's
`investment_start` is the previous row's `investment_end`. -/
theorem invest_recurrence (inputs : Inputs) (rent_df : List RentRecord)
    (buy_df : List BuyRecord) (rows : List InvestRecord)
    (h : calculate_rent_investment_scenario inputs rent_df buy_df = some rows) :
    (∀ rec ∈ rows,
       rec.difference = rec.buy_outflow - rec.rent_outflow ∧
       rec.investment_end
         = (rec.investment_start + (rec.buy_outflow - rec.rent_outflow))
           * (1 + inputs.general.savings_interest_rate)) ∧
    (∀ rec, rows.head? = some rec →
       rec.investment_start = inputs.buy.downpayment + inputs.buy.closing_costs) ∧
    List.Chain' (fun a b => b.investment_start = a.investment_end) rows := by
  simp only [calculate_rent_investment_scenario] at h
  rcases hgl : ((investRows inputs.general.savings_interest_rate
      (inputs.buy.downpayment + inputs.buy.closing_costs) 1
      ((rent_df.map RentRecord.total_rent_cost).zip
        (buy_df.map BuyRecord.total_outflow))).map InvestRecord.investment_end).getLast?
    with _ | w
  · rw [hgl] at h
    simp at h
  · rw [hgl] at h
    simp only [Option.some.injEq] at h
    rw [← h]
    refine ⟨fun rec hrec => investRows_fields _ _ _ _ rec hrec,
      fun rec hrec => investRows_head _ _ _ _ rec hrec,
      investRows_chain _ _ _ _⟩

lemma invest_example_some :
    calculate_rent_investment_scenario exampleInputsOneYear
      [exampleRentRow] [exampleBuyRowA] = some [exampleInvestRow] := by
  norm_num [calculate_rent_investment_scenario, investRows, exampleRentRow,
    exampleBuyRowA, exampleInvestRow, exampleInputsOneYear]

/-- Witness for claim C3 on a one-row schedule: rent outflow 5, buy
outflow 7, zero savings rate, zero upfront capital. -/
theorem invest_recurrence_witness :
    (∀ rec ∈ [exampleInvestRow],
       rec.difference = rec.buy_outflow - rec.rent_outflow ∧
       rec.investment_end
         = (rec.investment_start + (rec.buy_outflow - rec.rent_outflow))
           * (1 + exampleInputsOneYear.general.savings_interest_rate)) ∧
    (∀ rec, ([exampleInvestRow] : List InvestRecord).head? = some rec →
       rec.investment_start
         = exampleInputsOneYear.buy.downpayment + exampleInputsOneYear.buy.closing_costs) ∧
    List.Chain' (fun a b => b.investment_start = a.investment_end) [exampleInvestRow] :=
  invest_recurrence exampleInputsOneYear [exampleRentRow] [exampleBuyRowA]
    [exampleInvestRow] invest_example_some

/-- Claim C1: the summary satisfies
`difference_in_net_worth = final_net_equity_buying - final_rent_net_worth`,
where `final_rent_net_worth` is the investment schedule's last ending
balance and `final_net_equity_buying` is derived from the last analysis
year's buy row as raw equity minus agent commission minus capital-gains
tax on `max(final value - purchase price, 0)`. -/
theorem summary_difference (rent_df : List RentRecord) (buy_df : List BuyRecord)
    (rent_invest_df : List InvestRecord) (inputs : Inputs) (s : Summary)
    (h : compare_scenarios rent_df buy_df rent_invest_df inputs = some s) :
    s.difference_in_net_worth = s.final_net_equity_buying - s.final_rent_net_worth ∧
    (rent_invest_df.map InvestRecord.investment_end).getLast?
      = some s.final_rent_net_worth ∧
    ∃ rec, (buy_df.filter fun r =>
        r.year = inputs.general.analysis_years).head? = some rec ∧
      s.final_net_equity_buying
        = (rec.house_value_end - rec.mortgage_balance_end)
          - inputs.selling.agent_commission_rate * rec.house_value_end
          - inputs.selling.capital_gains_tax_rate
            * max (rec.house_value_end - inputs.buy.cash_price) 0 := by
  simp only [compare_scenarios] at h
  rcases hgl : (rent_invest_df.map InvestRecord.investment_end).getLast? with _ | w
  · rw [hgl] at h
    simp at h
  · rcases hhd : (buy_df.filter fun r =>
        r.year = inputs.general.analysis_years).head? with _ | rec
    · rw [hgl, hhd] at h
      simp at h
    · rw [hgl, hhd] at h
      simp only [Option.some.injEq] at h
      rw [← h]
      refine ⟨rfl, rfl, rec, hhd, ?_⟩
      show (rec.house_value_end - rec.mortgage_balance_end)
          - rec.house_value_end * inputs.selling.agent_commission_rate
          - max (rec.house_value_end - inputs.buy.cash_price) 0
            * inputs.selling.capital_gains_tax_rate
        = (rec.house_value_end - rec.mortgage_balance_end)
          - inputs.selling.agent_commission_rate * rec.house_value_end
          - inputs.selling.capital_gains_tax_rate
            * max (rec.house_value_end - inputs.buy.cash_price) 0
      ring

lemma compare_example_some :
    compare_scenarios [exampleRentRow] [exampleBuyRowA] [exampleInvestRow]
      exampleInputsOneYear = some ⟨5, 2, 7, 60, 58⟩ := by
  norm_num [compare_scenarios, exampleRentRow, exampleBuyRowA, exampleInvestRow,
    exampleInputsOneYear, max_def]

/-- Witness for claim C1 on one-row schedules: house value 100, mortgage
balance 40, investment balance 2, zero selling costs. -/
theorem summary_difference_witness :
    (⟨5, 2, 7, 60, 58⟩ : Summary).difference_in_net_worth
        = (⟨5, 2, 7, 60, 58⟩ : Summary).final_net_equity_buying
          - (⟨5, 2, 7, 60, 58⟩ : Summary).final_rent_net_worth ∧
    (([exampleInvestRow] : List InvestRecord).map InvestRecord.investment_end).getLast?
        = some (⟨5, 2, 7, 60, 58⟩ : Summary).final_rent_net_worth ∧
    ∃ rec, (([exampleBuyRowA] : List BuyRecord).filter fun r =>
        r.year = exampleInputsOneYear.general.analysis_years).head? = some rec ∧
      (⟨5, 2, 7, 60, 58⟩ : Summary).final_net_equity_buying
        = (rec.house_value_end - rec.mortgage_balance_end)
          - exampleInputsOneYear.selling.agent_commission_rate * rec.house_value_end
          - exampleInputsOneYear.selling.capital_gains_tax_rate
            * max (rec.house_value_end - exampleInputsOneYear.buy.cash_price) 0 :=
  summary_difference [exampleRentRow] [exampleBuyRowA] [exampleInvestRow]
    exampleInputsOneYear ⟨5, 2, 7, 60, 58⟩ compare_example_some

/-- Claim C4 (code bug): the engine has no input validation.  With
`analysis_years = 0` the rent schedule is silently built (empty) and the
investment stage then fails with a raw `IndexError` (modelled `none`);
with `mortgage_term_years = 0` at the default 5.03% rate the payment
formula's denominator is zero and the buy scenario fails with a raw
`ZeroDivisionError` (modelled `none`).  No descriptive,
field-identifying validation error is raised before schedules are
built. -/
theorem no_fail_fast_validation :
    calculate_rent_scenario inputsYearsZero = [] ∧
    calculate_rent_investment_scenario inputsYearsZero
      (calculate_rent_scenario inputsYearsZero) [] = none ∧
    calculate_buy_scenario inputsTermZero = none := by
  refine ⟨?_, ?_, ?_⟩
  · simp [calculate_rent_scenario, inputsYearsZero, exampleInputsOneYear]
  · simp [calculate_rent_investment_scenario, investRows, calculate_rent_scenario,
      inputsYearsZero, exampleInputsOneYear]
  · simp only [calculate_buy_scenario, calculate_monthly_mortgage_payment,
      inputsTermZero, exampleInputsOneYear]
    norm_num

lemma payment_eq (principal annual_interest_rate : ℚ) (years : ℕ) :
    streamlitapp.calculate_monthly_mortgage_payment principal annual_interest_rate years
      = calculate_monthly_mortgage_payment principal annual_interest_rate years := rfl

lemma apply_inflation_eq : streamlitapp.apply_inflation = apply_inflation := rfl

lemma yearMonths_eq : streamlitapp.yearMonths = yearMonths := rfl

lemma rent_scenario_eq (inputs : Inputs) :
    streamlitapp.calculate_rent_scenario inputs = calculate_rent_scenario inputs := rfl

lemma mortgageMonths_eq :
    ∀ (k : ℕ) (r M b : ℚ) (j : ℕ),
      streamlitapp.mortgageMonths r M b j k = mortgageMonths r M b j k := by
  intro k
  induction k with
  | zero => intro r M b j; rfl
  | succ n ih =>
    intro r M b j
    rw [streamlitapp.mortgageMonths, mortgageMonths, ih]

lemma buyYearRows_eq :
    ∀ (k : ℕ) (inputs : Inputs) (mdf : List MonthRecord) (year : ℕ) (hv tpv tlv : ℚ),
      streamlitapp.buyYearRows inputs mdf year hv tpv tlv k
        = buyYearRows inputs mdf year hv tpv tlv k := by
  intro k
  induction k with
  | zero => intro inputs mdf year hv tpv tlv; rfl
  | succ n ih =>
    intro inputs mdf year hv tpv tlv
    rw [streamlitapp.buyYearRows, buyYearRows]
    simp only [yearMonths_eq, apply_inflation_eq, ih]

lemma buy_scenario_eq (inputs : Inputs) :
    streamlitapp.calculate_buy_scenario inputs = calculate_buy_scenario inputs := by
  simp only [streamlitapp.calculate_buy_scenario, calculate_buy_scenario,
    payment_eq, mortgageMonths_eq, buyYearRows_eq]

lemma investRows_eq :
    ∀ (l : List (ℚ × ℚ)) (s bal : ℚ) (y : ℕ),
      streamlitapp.investRows s bal y l = investRows s bal y l := by
  intro l
  induction l with
  | nil => intro s bal y; rfl
  | cons p rest ih =>
    obtain ⟨rc, bc⟩ := p
    intro s bal y
    rw [streamlitapp.investRows, investRows, ih]

lemma rent_investment_eq (inputs : Inputs) (rent_df : List RentRecord)
    (buy_df : List BuyRecord) :
    streamlitapp.calculate_rent_investment_scenario inputs rent_df buy_df
      = calculate_rent_investment_scenario inputs rent_df buy_df := by
  simp only [streamlitapp.calculate_rent_investment_scenario,
    calculate_rent_investment_scenario, investRows_eq]

lemma compare_eq (rent_df : List RentRecord) (buy_df : List BuyRecord)
    (rent_invest_df : List InvestRecord) (inputs : Inputs) :
    streamlitapp.compare_scenarios rent_df buy_df rent_invest_df inputs
      = compare_scenarios rent_df buy_df rent_invest_df inputs := rfl

/-- Claim C5: the notebook implementation and the interactive-form
implementation of the computation core agree on every configuration and
every pair of input schedules: same payment, same schedules, same
summary. -/
theorem notebook_streamlit_core_equal :
    ∀ (principal annual_interest_rate : ℚ) (years : ℕ) (inputs : Inputs)
      (rent_df : List RentRecord) (buy_df : List BuyRecord)
      (rent_invest_df : List InvestRecord),
      streamlitapp.calculate_monthly_mortgage_payment principal annual_interest_rate years
        = calculate_monthly_mortgage_payment principal annual_interest_rate years ∧
      streamlitapp.calculate_rent_scenario inputs = calculate_rent_scenario inputs ∧
      streamlitapp.calculate_buy_scenario inputs = calculate_buy_scenario inputs ∧
      streamlitapp.calculate_rent_investment_scenario inputs rent_df buy_df
        = calculate_rent_investment_scenario inputs rent_df buy_df ∧
      streamlitapp.compare_scenarios rent_df buy_df rent_invest_df inputs
        = compare_scenarios rent_df buy_df rent_invest_df inputs :=
  fun principal annual_interest_rate years inputs rent_df buy_df rent_invest_df =>
    ⟨payment_eq principal annual_interest_rate years,
     rent_scenario_eq inputs,
     buy_scenario_eq inputs,
     rent_investment_eq inputs rent_df buy_df,
     compare_eq rent_df buy_df rent_invest_df inputs⟩
